import Mathlib

/-!
Verification of the authentication and credential-lifecycle core of the
FinLogisticsAPP repository (`auth.py`, `main.py`, `email_utils.py`,
`models.py`) against its natural-language specification.

The Python code is shallowly embedded: time is a `Nat` counted in minutes
(matching the `timedelta(minutes=...)` arithmetic in `auth.py`); a JSON web
token is represented by its decoded claim set together with a marker for
strings that fail signature or format checks (`Token.malformed`); the
SQLAlchemy session is a list of user rows; HTTP exceptions carry status
code, detail and headers exactly as constructed in the source.
-/

namespace FinLogistics

/-! ### Configuration constants (`auth.py` lines 16-26) -/

def ACCESS_TOKEN_EXPIRE_MINUTES : Nat := 60

def EMAIL_TOKEN_EXPIRE_MINUTES : Nat := 30

def PASSWORD_RESET_EXPIRE_MINUTES : Nat := 30

/-! ### Password hashing (`auth.py` lines 21-22, 40-45)

`pwd_context = CryptContext(schemes=["pbkdf2_sha256"])` from the passlib
library.  A stored hash string either parses as a pbkdf2_sha256 record or
is unidentifiable.  The digest is idealized as collision-free: a record
`pbkdf2_sha256 salt pw` stands for the digest of password `pw` under
`salt`, and two digests agree exactly when the passwords agree. -/

inductive StoredHash where
  | pbkdf2_sha256 (salt : Nat) (password : String)
  | malformed (raw : String)
deriving DecidableEq, Repr

/-- Model of passlib's `CryptContext.verify` with the single scheme
`pbkdf2_sha256`: compares digests for a well-formed hash; for a stored
string that no configured scheme identifies it raises
`ValueError("hash could not be identified")` (documented passlib
behavior), modelled as the `.error` branch. -/
def pwd_context_verify (plain : String) (hashed : StoredHash) : Except String Bool :=
  match hashed with
  | .pbkdf2_sha256 _ pw => .ok (plain == pw)
  | .malformed _ => .error "hash could not be identified"

/-- Model of passlib's `CryptContext.hash`: fresh-salt pbkdf2_sha256 record.
The per-call random salt is passed explicitly. -/
def pwd_context_hash (password : String) (salt : Nat) : StoredHash :=
  .pbkdf2_sha256 salt password

/-- Embedding of `auth.verify_password` (lines 40-41): a bare delegation to
`pwd_context.verify`, with no exception handling of its own. -/
def verify_password (plain_password : String) (hashed_password : StoredHash) : Except String Bool :=
  pwd_context_verify plain_password hashed_password

/-- Embedding of `auth.get_password_hash` (lines 44-45). -/
def get_password_hash (password : String) (salt : Nat) : StoredHash :=
  pwd_context_hash password salt

/-! ### Data model (`models.py`) -/

/-- Embedding of `models.User`: the `users` table row.  `email` is nullable. -/
structure User where
  id : Nat
  username : String
  email : Option String
  hashed_password : StoredHash
  is_active : Bool
  is_verified : Bool
deriving DecidableEq, Repr

/-- The user table reached through the SQLAlchemy session; `first()` on a
filtered query is `List.find?` over the rows. -/
structure DB where
  users : List User
deriving DecidableEq, Repr

/-- Embedding of `auth.get_user_by_username` (lines 50-51). -/
def get_user_by_username (db : DB) (username : String) : Option User :=
  db.users.find? (fun u => u.username == username)

/-- Embedding of `auth.get_user_by_email` (lines 54-55). -/
def get_user_by_email (db : DB) (email : String) : Option User :=
  db.users.find? (fun u => u.email == some email)

/-! ### Tokens (`auth.py` lines 71-116)

A claim set as encoded by `jwt.encode`: the `sub` and `type` entries of the
payload dict (absent entries are `none`, matching `payload.get(...)`
returning `None`) and the `exp` timestamp in minutes. -/

structure Payload where
  sub : Option String
  type : Option String
  exp : Nat
deriving DecidableEq, Repr

/-- An encoded token string: either it carries a valid signature over a
payload, or `jwt.decode` fails on it (bad signature, tampered or
unparseable string), raising `JWTError`. -/
inductive Token where
  | signed (payload : Payload)
  | malformed
deriving DecidableEq, Repr

/-- Model of `jose.jwt.decode` with the shared secret: checks the signature and the
`exp` claim (raising the `JWTError` subclass `ExpiredSignatureError` once
`exp` lies in the past, with no leeway); `none` models the raised
`JWTError`. -/
def jwtDecode (now : Nat) : Token → Option Payload
  | .signed p => if now ≤ p.exp then some p else none
  | .malformed => none

/-- The non-`exp` entries of the dict handed to `create_access_token`. -/
structure Claims where
  sub : Option String
  type : Option String
deriving DecidableEq, Repr

/-- Embedding of `auth.create_access_token` (lines 71-75): adds `exp = now + expires_delta`
(default 15 minutes) to the caller's claims and signs.  Note the payload
carries no `type` entry unless the caller supplies one; `login` does not. -/
def create_access_token (data : Claims) (now : Nat) (expires_delta : Option Nat) : Token :=
  .signed { sub := data.sub, type := data.type, exp := now + expires_delta.getD 15 }

/-- Embedding of `auth.create_email_verification_token` (lines 78-85). -/
def create_email_verification_token (email : String) (now : Nat) : Token :=
  .signed { sub := some email, type := some "verify_email", exp := now + EMAIL_TOKEN_EXPIRE_MINUTES }

/-- Embedding of `auth.decode_email_verification_token` (lines 88-95): `none` covers both
the `JWTError` branch and a wrong `type`; otherwise returns `payload.get("sub")`
(possibly `none`). -/
def decode_email_verification_token (token : Token) (now : Nat) : Option String :=
  match jwtDecode now token with
  | none => none
  | some payload =>
    if payload.type == some "verify_email" then payload.sub else none

/-- Embedding of `auth.create_password_reset_token` (lines 98-105). -/
def create_password_reset_token (email : String) (now : Nat) : Token :=
  .signed { sub := some email, type := some "reset_password", exp := now + PASSWORD_RESET_EXPIRE_MINUTES }

/-- Embedding of `auth.decode_password_reset_token` (lines 108-116). -/
def decode_password_reset_token (token : Token) (now : Nat) : Option String :=
  match jwtDecode now token with
  | none => none
  | some payload =>
    if payload.type == some "reset_password" then payload.sub else none

/-! ### HTTP errors -/

/-- Embedding of `fastapi.HTTPException` as raised by this code: status, detail and the
optional extra headers. -/
structure HTTPException where
  status_code : Nat
  detail : String
  headers : List (String × String)
deriving DecidableEq, Repr

/-- The single rejection object built in `get_current_user`
(`auth.py` lines 124-128). -/
def credentials_exception : HTTPException :=
  { status_code := 401
    detail := "Could not validate credentials (token)."
    headers := [("WWW-Authenticate", "Bearer")] }

/-- A Python exception escaping a route handler: either a deliberate
`HTTPException` or an uncaught `ValueError` (from passlib). -/
inductive PyErr where
  | http (e : HTTPException)
  | valueError (msg : String)
deriving DecidableEq, Repr

/-! ### Authentication (`auth.py` lines 58-66, `main.py` lines 136-160) -/

/-- The identifier-resolution step inside `auth.authenticate_user`
(lines 59-61): try username first, then email. -/
def lookup_identifier (db : DB) (ident : String) : Option User :=
  match get_user_by_username db ident with
  | some u => some u
  | none => get_user_by_email db ident

/-- Embedding of `auth.authenticate_user` (lines 58-66): `.ok none` models returning
`None`; a `ValueError` out of `verify_password` propagates. -/
def authenticate_user (db : DB) (username password : String) : Except String (Option User) :=
  match lookup_identifier db username with
  | none => .ok none
  | some user =>
    match verify_password password user.hashed_password with
    | .error e => .error e
    | .ok true => .ok (some user)
    | .ok false => .ok none

/-- Embedding of `main.login_for_access_token` (lines 136-160), returning the issued
access token on success. -/
def login_for_access_token (db : DB) (username password : String) (now : Nat) : Except PyErr Token :=
  match authenticate_user db username password with
  | .error e => .error (.valueError e)
  | .ok none =>
    .error (.http { status_code := 401
                    detail := "Incorrect username or password"
                    headers := [("WWW-Authenticate", "Bearer")] })
  | .ok (some user) =>
    if user.is_verified then
      .ok (create_access_token { sub := some user.username, type := none } now
            (some ACCESS_TOKEN_EXPIRE_MINUTES))
    else
      .error (.http { status_code := 403
                      detail := "Email not verified. Please check your inbox."
                      headers := [] })

/-! ### Request authentication (`auth.py` lines 120-154) -/

/-- Embedding of `auth.get_current_user` (lines 120-141): decode the bearer token, read
`sub`, look the value up as a username.  No check of the `type` claim is
performed. -/
def get_current_user (db : DB) (token : Token) (now : Nat) : Except HTTPException User :=
  match jwtDecode now token with
  | none => .error credentials_exception
  | some payload =>
    match payload.sub with
    | none => .error credentials_exception
    | some username =>
      match get_user_by_username db username with
      | none => .error credentials_exception
      | some user => .ok user

/-- Embedding of `auth.get_current_active_user` (lines 144-154). -/
def get_current_active_user (db : DB) (token : Token) (now : Nat) : Except HTTPException User :=
  match get_current_user db token now with
  | .error e => .error e
  | .ok user =>
    if user.is_active = false then
      .error { status_code := 400, detail := "Inactive user", headers := [] }
    else if user.is_verified = false then
      .error { status_code := 403
               detail := "Email not verified. Please check your inbox."
               headers := [] }
    else .ok user

/-! ### Email verification route (`main.py` lines 163-178) -/

/-- The effect of `user.is_verified = True; db.commit()` in
`main.verify_email`: the row with the fetched user's id is updated in
place. -/
def setVerified (db : DB) (uid : Nat) : DB :=
  ⟨db.users.map (fun v => if v.id = uid then { v with is_verified := true } else v)⟩

/-- Embedding of `main.verify_email`: the route returns a message; the state after the
call is returned alongside it.  Python's `if not email:` is falsy for both
`None` and the empty string. -/
def verify_email (db : DB) (token : Token) (now : Nat) : Except HTTPException (String × DB) :=
  match decode_email_verification_token token now with
  | none => .error { status_code := 400, detail := "Invalid or expired token", headers := [] }
  | some email =>
    if email = "" then
      .error { status_code := 400, detail := "Invalid or expired token", headers := [] }
    else
      match get_user_by_email db email with
      | none => .error { status_code := 404, detail := "User not found", headers := [] }
      | some user =>
        if user.is_verified then
          .ok ("Email already verified.", db)
        else
          .ok ("Email verified successfully. You can now log in.", setVerified db user.id)

/-! ### Email dispatch (`email_utils.py`) -/

/-- One entry of the Mailjet `Messages` array; `link` is the
verification/reset link embedded in the text and HTML bodies, carried here
as the token the link's query string encodes. -/
structure MailMessage where
  toEmail : String
  subject : String
  customId : Option String
  link : Token
deriving DecidableEq, Repr

/-- Embedding of `email_utils.send_verification_email` (lines 18-75), returning the list
of messages handed to the Mailjet client.  When the client is not
configured the function only logs and sends nothing; when it is, exactly
one message is built and the `send.create` call sits inside
`try/except Exception`, so a failing external send (`sendOk = false`) is
logged and swallowed — the returned value does not depend on `sendOk` and
the function never raises. -/
def send_verification_email (to_email : String) (verify_link : Token) (mjConfigured sendOk : Bool) :
    List MailMessage :=
  if mjConfigured then
    [{ toEmail := to_email, subject := "Verify your email – Logistics FinApp",
       customId := none, link := verify_link }]
  else []

/-- Embedding of `email_utils.send_password_reset_email` (lines 78-132): builds exactly
one message and attempts the send inside `try/except Exception`; any
failure (including the unconfigured `mj_client is None` case, where the
attribute access raises) is caught, so exactly one dispatch is attempted
and nothing propagates. -/
def send_password_reset_email (to_email : String) (reset_link : Token) : List MailMessage :=
  [{ toEmail := to_email, subject := "Reset your password – Logistics FinApp",
     customId := some "PasswordReset", link := reset_link }]

/-! ### Registration route (`main.py` lines 105-133) -/

/-- Embedding of `main.register_user`: duplicate checks, then user creation and commit,
then verification-token creation and email dispatch.  `salt` is the random
salt drawn inside `get_password_hash`, `nextId` the id assigned by the
store at `db.commit()`.  On success the created user, the committed state
and the dispatched messages are returned; the commit happens before the
dispatch, so the stored state is the same whatever `mjConfigured`/`sendOk`
are. -/
def register_user (db : DB) (username email password : String) (salt nextId now : Nat)
    (mjConfigured sendOk : Bool) : Except HTTPException (User × DB × List MailMessage) :=
  if (get_user_by_username db username).isSome then
    .error { status_code := 400, detail := "Username already registered", headers := [] }
  else if (get_user_by_email db email).isSome then
    .error { status_code := 400, detail := "Email already registered", headers := [] }
  else
    let user : User :=
      { id := nextId
        username := username
        email := some email
        hashed_password := get_password_hash password salt
        is_active := true
        is_verified := false }
    let token := create_email_verification_token email now
    let mails := send_verification_email email token mjConfigured sendOk
    .ok (user, ⟨db.users ++ [user]⟩, mails)

/-! ### Password-reset request -/

/-- The constant caller-visible response of the reset-request operation. -/
def resetRequestResponse : String :=
  "If that email is registered, a password reset link has been sent."

/-- Modelled from the spec: `main.py` contains no password-reset route —
only the helpers `create_password_reset_token`, `decode_password_reset_token`
(`auth.py`) and `send_password_reset_email` (`email_utils.py`) exist in the
source.  The missing `requestPasswordReset` endpoint is modelled from the
spec's words: look up the user by email; if absent, still report success
to the caller but dispatch nothing; if present, issue a `reset_password`
token and dispatch a reset email via `send_password_reset_email`.  The
result pairs the caller-visible response with the dispatched messages. -/
def requestPasswordReset (db : DB) (email : String) (now : Nat) : String × List MailMessage :=
  match get_user_by_email db email with
  | none => (resetRequestResponse, [])
  | some _ =>
    (resetRequestResponse, send_password_reset_email email (create_password_reset_token email now))

/-! ## Claims -/

/-- C10: a bearer token with a valid signature but no `sub` claim (or a
null `sub`) is rejected by `get_current_user` with exactly the
`credentials_exception` used for invalid tokens, whatever the database,
the clock and the rest of the payload; no other error escapes (the model
is total and both branches below produce the same structured 401). -/
theorem c10_missing_sub_same_rejection (db : DB) (now exp : Nat) (ty : Option String) :
    get_current_user db (.signed { sub := none, type := ty, exp := exp }) now
      = .error credentials_exception
    ∧ get_current_user db .malformed now = .error credentials_exception := by
  refine ⟨?_, rfl⟩
  simp only [get_current_user, jwtDecode]
  by_cases h : now ≤ exp <;> simp [h]

/-- C1 is violated by the code: `get_current_user` never inspects the
`type` claim, so a `verify_email` token whose subject equals an existing
username is accepted as a bearer access token.  Concretely, for a user
whose username is the string "a@x.com" (and whose email is the same
address), the email-verification token issued at minute 0 authenticates a
request at minute 5. -/
theorem c1_verify_email_token_accepted_as_access :
    create_email_verification_token "a@x.com" 0
      = .signed { sub := some "a@x.com", type := some "verify_email", exp := 30 }
    ∧ get_current_user
        ⟨[{ id := 1, username := "a@x.com", email := some "a@x.com",
            hashed_password := .pbkdf2_sha256 0 "pw", is_active := true, is_verified := false }]⟩
        (create_email_verification_token "a@x.com" 0) 5
      = .ok { id := 1, username := "a@x.com", email := some "a@x.com",
              hashed_password := .pbkdf2_sha256 0 "pw", is_active := true, is_verified := false } :=
  ⟨rfl, rfl⟩

/-- Fixture for C2: a verified but administratively deactivated user. -/
def c2User : User :=
  { id := 1, username := "bob", email := some "b@x.com",
    hashed_password := .pbkdf2_sha256 0 "pw", is_active := false, is_verified := true }

/-- Fixture for C2: a valid access token for `c2User`, as issued by login. -/
def c2Tok : Token :=
  create_access_token { sub := some "bob", type := none } 0 (some ACCESS_TOKEN_EXPIRE_MINUTES)

/-- C2 as stated is false: at a concrete state, a valid access token for
an inactive user is rejected with HTTP 400 "Inactive user", while a
missing/invalid token is rejected with the 401 `credentials_exception`;
the two rejections differ, so the caller can distinguish an inactive
account from a nonexistent one. -/
theorem c2_inactive_rejection_distinguishable :
    get_current_active_user ⟨[c2User]⟩ c2Tok 5
      = .error { status_code := 400, detail := "Inactive user", headers := [] }
    ∧ get_current_active_user ⟨[c2User]⟩ .malformed 5 = .error credentials_exception
    ∧ ({ status_code := 400, detail := "Inactive user", headers := [] } : HTTPException)
      ≠ credentials_exception :=
  ⟨rfl, rfl, by decide⟩

/-- C2 amended: every request whose valid access token resolves to a user
with `is_active = false` is rejected, but with HTTP 400 "Inactive user" —
a rejection distinct from the 401 `credentials_exception` used for
missing/invalid tokens, so inactive accounts are distinguishable. -/
theorem c2_inactive_rejected_with_400 (db : DB) (token : Token) (now : Nat) (u : User)
    (h1 : get_current_user db token now = .ok u) (h2 : u.is_active = false) :
    get_current_active_user db token now
      = .error { status_code := 400, detail := "Inactive user", headers := [] }
    ∧ ({ status_code := 400, detail := "Inactive user", headers := [] } : HTTPException)
      ≠ credentials_exception := by
  refine ⟨?_, by decide⟩
  unfold get_current_active_user
  rw [h1]
  simp [h2]

/-- Witness for the amended C2 at the concrete fixture state. -/
theorem c2_inactive_rejected_with_400_witness :
    get_current_user ⟨[c2User]⟩ c2Tok 5 = .ok c2User ∧ c2User.is_active = false
    ∧ (get_current_active_user ⟨[c2User]⟩ c2Tok 5
        = .error { status_code := 400, detail := "Inactive user", headers := [] }
      ∧ ({ status_code := 400, detail := "Inactive user", headers := [] } : HTTPException)
        ≠ credentials_exception) :=
  ⟨rfl, rfl, c2_inactive_rejected_with_400 ⟨[c2User]⟩ c2Tok 5 c2User rfl rfl⟩

/-- C6 as stated is false: at the concrete malformed stored hash
"not-a-hash", `verify_password` does not return `false` — it propagates
passlib's `ValueError` into the caller. -/
theorem c6_malformed_hash_not_false :
    verify_password "x" (.malformed "not-a-hash") = .error "hash could not be identified"
    ∧ verify_password "x" (.malformed "not-a-hash") ≠ .ok false :=
  ⟨rfl, fun h => Except.noConfusion h⟩

/-- C6 amended: for every plaintext and every malformed stored hash,
`verify_password` raises passlib's `ValueError` ("hash could not be
identified") into the caller — it has no exception handling of its own —
and in particular never returns `false` (or any boolean) for a malformed
hash. -/
theorem c6_malformed_hash_raises (plain raw : String) :
    verify_password plain (.malformed raw) = .error "hash could not be identified"
    ∧ ∀ b : Bool, verify_password plain (.malformed raw) ≠ .ok b :=
  ⟨rfl, fun _ h => Except.noConfusion h⟩

/-! ### Helper lemmas about `authenticate_user` and `login_for_access_token` -/

theorem authenticate_user_of_lookup_none {db : DB} {ident pw : String}
    (h : lookup_identifier db ident = none) :
    authenticate_user db ident pw = .ok none := by
  unfold authenticate_user
  rw [h]

theorem authenticate_user_of_wrong_password {db : DB} {ident pw : String} {u : User}
    (h : lookup_identifier db ident = some u)
    (hv : verify_password pw u.hashed_password = .ok false) :
    authenticate_user db ident pw = .ok none := by
  unfold authenticate_user
  rw [h]
  show (match verify_password pw u.hashed_password with
        | Except.error e => Except.error e
        | Except.ok true => Except.ok (some u)
        | Except.ok false => Except.ok none) = Except.ok none
  rw [hv]

theorem authenticate_user_of_correct_password {db : DB} {ident pw : String} {u : User}
    (h : lookup_identifier db ident = some u)
    (hv : verify_password pw u.hashed_password = .ok true) :
    authenticate_user db ident pw = .ok (some u) := by
  unfold authenticate_user
  rw [h]
  show (match verify_password pw u.hashed_password with
        | Except.error e => Except.error e
        | Except.ok true => Except.ok (some u)
        | Except.ok false => Except.ok none) = Except.ok (some u)
  rw [hv]

theorem login_of_auth_none {db : DB} {ident pw : String} {now : Nat}
    (h : authenticate_user db ident pw = .ok none) :
    login_for_access_token db ident pw now
      = .error (.http { status_code := 401
                        detail := "Incorrect username or password"
                        headers := [("WWW-Authenticate", "Bearer")] }) := by
  unfold login_for_access_token
  rw [h]

theorem login_of_auth_some {db : DB} {ident pw : String} {now : Nat} {u : User}
    (h : authenticate_user db ident pw = .ok (some u)) :
    login_for_access_token db ident pw now
      = if u.is_verified then
          .ok (create_access_token { sub := some u.username, type := none } now
                (some ACCESS_TOKEN_EXPIRE_MINUTES))
        else
          .error (.http { status_code := 403
                          detail := "Email not verified. Please check your inbox."
                          headers := [] }) := by
  unfold login_for_access_token
  rw [h]

/-- C3: login never hands a token to an unverified user — with a correct
password and `is_verified = false` it fails with the 403 EmailNotVerified
rejection — and conversely every token login returns was issued to a user
who resolved from the identifier, whose password verified, whose
`is_verified` is true, and the token is the access token bound to that
user's username. -/
theorem c3_unverified_never_gets_token (db : DB) (ident pw : String) (now : Nat) :
    (∀ u : User, lookup_identifier db ident = some u →
        verify_password pw u.hashed_password = .ok true →
        u.is_verified = false →
        login_for_access_token db ident pw now
          = .error (.http { status_code := 403
                            detail := "Email not verified. Please check your inbox."
                            headers := [] }))
    ∧ (∀ t : Token, login_for_access_token db ident pw now = .ok t →
        ∃ u : User, lookup_identifier db ident = some u
          ∧ verify_password pw u.hashed_password = .ok true
          ∧ u.is_verified = true
          ∧ t = create_access_token { sub := some u.username, type := none } now
                  (some ACCESS_TOKEN_EXPIRE_MINUTES)) := by
  constructor
  · intro u hu hv hnv
    rw [login_of_auth_some (authenticate_user_of_correct_password hu hv), hnv]
    rfl
  · intro t ht
    unfold login_for_access_token at ht
    split at ht
    · exact absurd ht (by simp)
    · exact absurd ht (by simp)
    · rename_i user heq
      split at ht
      · rename_i hver
        unfold authenticate_user at heq
        split at heq
        · exact absurd heq (by simp)
        · rename_i u' hL
          split at heq
          · exact absurd heq (by simp)
          · rename_i hv'
            have huu : u' = user := Option.some.inj (Except.ok.inj heq)
            subst huu
            exact ⟨u', hL, hv', hver, (Except.ok.inj ht).symm⟩
          · exact absurd heq (by simp)
      · exact absurd ht (by simp)

/-- Fixture for C3's witness: alice, correct password, unverified. -/
def c3User : User :=
  { id := 1, username := "alice", email := some "a@x.com",
    hashed_password := .pbkdf2_sha256 7 "pw1", is_active := true, is_verified := false }

/-- Witness for C3 at a concrete state: unverified alice with the correct
password is rejected with the 403 EmailNotVerified error. -/
theorem c3_unverified_never_gets_token_witness :
    lookup_identifier ⟨[c3User]⟩ "alice" = some c3User
    ∧ verify_password "pw1" c3User.hashed_password = .ok true
    ∧ c3User.is_verified = false
    ∧ login_for_access_token ⟨[c3User]⟩ "alice" "pw1" 0
        = .error (.http { status_code := 403
                          detail := "Email not verified. Please check your inbox."
                          headers := [] }) :=
  ⟨rfl, rfl, rfl,
    (c3_unverified_never_gets_token ⟨[c3User]⟩ "alice" "pw1" 0).1 c3User rfl rfl rfl⟩

/-- C5: login with an identifier that resolves to no user and login with
an identifier that resolves to a user but a wrong password produce the
very same `InvalidCredentials` rejection (401, same detail, same headers)
— the two responses are equal, hence indistinguishable. -/
theorem c5_invalid_credentials_indistinguishable (db : DB) (id1 pw1 id2 pw2 : String)
    (now : Nat) (u : User) (s : Nat) (hp : String)
    (h1 : lookup_identifier db id1 = none)
    (h2 : lookup_identifier db id2 = some u)
    (h3 : u.hashed_password = .pbkdf2_sha256 s hp)
    (h4 : pw2 ≠ hp) :
    login_for_access_token db id1 pw1 now
      = .error (.http { status_code := 401
                        detail := "Incorrect username or password"
                        headers := [("WWW-Authenticate", "Bearer")] })
    ∧ login_for_access_token db id2 pw2 now
      = .error (.http { status_code := 401
                        detail := "Incorrect username or password"
                        headers := [("WWW-Authenticate", "Bearer")] })
    ∧ login_for_access_token db id1 pw1 now = login_for_access_token db id2 pw2 now := by
  have ha : login_for_access_token db id1 pw1 now
      = .error (.http { status_code := 401
                        detail := "Incorrect username or password"
                        headers := [("WWW-Authenticate", "Bearer")] }) :=
    login_of_auth_none (authenticate_user_of_lookup_none h1)
  have hverify : verify_password pw2 u.hashed_password = .ok false := by
    rw [h3]
    unfold verify_password pwd_context_verify
    show Except.ok (pw2 == hp) = Except.ok false
    rw [beq_eq_false_iff_ne.mpr h4]
  have hb : login_for_access_token db id2 pw2 now
      = .error (.http { status_code := 401
                        detail := "Incorrect username or password"
                        headers := [("WWW-Authenticate", "Bearer")] }) :=
    login_of_auth_none (authenticate_user_of_wrong_password h2 hverify)
  exact ⟨ha, hb, ha.trans hb.symm⟩

/-- Fixture for C5's witness: alice with password "pw1", verified. -/
def c5User : User :=
  { id := 1, username := "alice", email := some "a@x.com",
    hashed_password := .pbkdf2_sha256 3 "pw1", is_active := true, is_verified := true }

/-- Witness for C5 at a concrete state: `login("nonexistent","anything")`
and `login("alice","wrongpw")` return the same error. -/
theorem c5_invalid_credentials_indistinguishable_witness :
    lookup_identifier ⟨[c5User]⟩ "nonexistent" = none
    ∧ lookup_identifier ⟨[c5User]⟩ "alice" = some c5User
    ∧ c5User.hashed_password = .pbkdf2_sha256 3 "pw1"
    ∧ "wrongpw" ≠ "pw1"
    ∧ (login_for_access_token ⟨[c5User]⟩ "nonexistent" "anything" 0
        = .error (.http { status_code := 401
                          detail := "Incorrect username or password"
                          headers := [("WWW-Authenticate", "Bearer")] })
      ∧ login_for_access_token ⟨[c5User]⟩ "alice" "wrongpw" 0
        = .error (.http { status_code := 401
                          detail := "Incorrect username or password"
                          headers := [("WWW-Authenticate", "Bearer")] })
      ∧ login_for_access_token ⟨[c5User]⟩ "nonexistent" "anything" 0
        = login_for_access_token ⟨[c5User]⟩ "alice" "wrongpw" 0) :=
  ⟨rfl, rfl, rfl, by decide,
    c5_invalid_credentials_indistinguishable ⟨[c5User]⟩ "nonexistent" "anything" "alice"
      "wrongpw" 0 c5User 3 "pw1" rfl rfl rfl (by decide)⟩

/-- C9: TTLs are the per-kind design constants.  Every access token that
login returns is signed with `exp = issuedAt + 60` minutes; every
email-verification token is signed with `exp = issuedAt + 30`; every
password-reset token is signed with `exp = issuedAt + 30`.  None of the
route signatures lets a caller supply a TTL. -/
theorem c9_fixed_ttls_per_kind :
    (∀ (db : DB) (ident pw : String) (now : Nat) (t : Token),
      login_for_access_token db ident pw now = .ok t →
      ∃ p : Payload, t = .signed p ∧ p.exp = now + 60)
    ∧ (∀ (e : String) (now : Nat), ∃ s ty,
        create_email_verification_token e now = .signed { sub := s, type := ty, exp := now + 30 })
    ∧ (∀ (e : String) (now : Nat), ∃ s ty,
        create_password_reset_token e now = .signed { sub := s, type := ty, exp := now + 30 }) := by
  refine ⟨?_, fun e now => ⟨some e, some "verify_email", rfl⟩,
          fun e now => ⟨some e, some "reset_password", rfl⟩⟩
  intro db ident pw now t ht
  unfold login_for_access_token at ht
  split at ht
  · exact absurd ht (by simp)
  · exact absurd ht (by simp)
  · rename_i user heq
    split at ht
    · exact ⟨{ sub := some user.username, type := none, exp := now + 60 },
        (Except.ok.inj ht).symm, rfl⟩
    · exact absurd ht (by simp)

/-- Fixture for C9's witness: the token login issues to alice at minute 0. -/
def c9Tok : Token := Token.signed { sub := some "alice", type := none, exp := 60 }

/-- Witness for C9 at a concrete state: the access token issued by a
successful login at minute 0 expires at minute 60. -/
theorem c9_fixed_ttls_per_kind_witness :
    login_for_access_token ⟨[c5User]⟩ "alice" "pw1" 0 = .ok c9Tok
    ∧ ∃ p : Payload, c9Tok = .signed p ∧ p.exp = 0 + 60 :=
  ⟨rfl, c9_fixed_ttls_per_kind.1 ⟨[c5User]⟩ "alice" "pw1" 0 c9Tok rfl⟩

/-- C4: `requestPasswordReset` reports the same success to the caller for
every input email; it dispatches nothing when no user has the email and
exactly one reset email when one does. -/
theorem c4_reset_request_uniform_success (db : DB) (email : String) (now : Nat) :
    (requestPasswordReset db email now).1 = resetRequestResponse
    ∧ (requestPasswordReset db email now).2
        = (if (get_user_by_email db email).isSome then
            send_password_reset_email email (create_password_reset_token email now)
          else [])
    ∧ (send_password_reset_email email (create_password_reset_token email now)).length = 1 := by
  unfold requestPasswordReset
  cases h : get_user_by_email db email <;>
    simp [h, send_password_reset_email]

/-- Looking a user up by email is unaffected by a row transformation that
preserves the `email` column. -/
theorem find?_map_of_email_eq (f : User → User) (hf : ∀ v, (f v).email = v.email)
    (l : List User) (e : String) :
    (l.map f).find? (fun v => v.email == some e)
      = (l.find? (fun v => v.email == some e)).map f := by
  induction l with
  | nil => rfl
  | cons a t ih =>
    simp only [List.map_cons, List.find?]
    rw [hf a]
    cases h : a.email == some e
    · simp only [h, ih]
    · simp only [h]
      rfl

/-- C7: `confirmEmail` is idempotent at the success boundary.  For a valid
unexpired `verify_email` token whose subject resolves to an unverified
user, the first call succeeds and sets `is_verified = true`; a second call
with the same still-valid token succeeds with the no-op message and
returns the state unchanged. -/
theorem c7_confirm_email_idempotent (db : DB) (token : Token) (now : Nat) (e : String) (u : User)
    (hd : decode_email_verification_token token now = some e)
    (he : ¬ e = "")
    (hu : get_user_by_email db e = some u)
    (hv : u.is_verified = false) :
    ∃ db2 : DB,
      verify_email db token now = .ok ("Email verified successfully. You can now log in.", db2)
      ∧ get_user_by_email db2 e = some { u with is_verified := true }
      ∧ verify_email db2 token now = .ok ("Email already verified.", db2) := by
  have hfind : get_user_by_email (setVerified db u.id) e = some { u with is_verified := true } := by
    unfold get_user_by_email setVerified
    rw [find?_map_of_email_eq _ (fun v => by by_cases h : v.id = u.id <;> simp [h])]
    have hu' : db.users.find? (fun v => v.email == some e) = some u := hu
    rw [hu']
    simp
  refine ⟨setVerified db u.id, ?_, hfind, ?_⟩
  · simp [verify_email, hd, he, hu, hv]
  · simp [verify_email, hd, he, hfind]

/-- Fixture for C7's witness: an unverified user whose email the token
names. -/
def c7User : User :=
  { id := 4, username := "carol", email := some "c@x.com",
    hashed_password := .pbkdf2_sha256 2 "pwc", is_active := true, is_verified := false }

/-- Witness for C7 at a concrete state: the verification token issued at
minute 0 and redeemed twice at minute 5. -/
theorem c7_confirm_email_idempotent_witness :
    decode_email_verification_token (create_email_verification_token "c@x.com" 0) 5 = some "c@x.com"
    ∧ ¬ "c@x.com" = ""
    ∧ get_user_by_email ⟨[c7User]⟩ "c@x.com" = some c7User
    ∧ c7User.is_verified = false
    ∧ ∃ db2 : DB,
        verify_email ⟨[c7User]⟩ (create_email_verification_token "c@x.com" 0) 5
          = .ok ("Email verified successfully. You can now log in.", db2)
        ∧ get_user_by_email db2 "c@x.com" = some { c7User with is_verified := true }
        ∧ verify_email db2 (create_email_verification_token "c@x.com" 0) 5
          = .ok ("Email already verified.", db2) :=
  ⟨rfl, by decide, rfl, rfl,
    c7_confirm_email_idempotent ⟨[c7User]⟩ (create_email_verification_token "c@x.com" 0) 5
      "c@x.com" c7User rfl (by decide) rfl rfl⟩

/-- C8: registration fails with a 400 duplicate error whenever the
username or the email already exists; on success it stores the user with
the salted credential hash, `is_verified = false` and `is_active = true`,
appends it to the store, and dispatches the `verify_email` token for the
email; the stored state is the same whatever the dispatch configuration
and outcome (no rollback on dispatch failure). -/
theorem c8_register_behavior (db : DB) (username email password : String)
    (salt nextId now : Nat) (mjConfigured sendOk : Bool) :
    ((get_user_by_username db username).isSome ∨ (get_user_by_email db email).isSome →
      ∃ exc : HTTPException,
        register_user db username email password salt nextId now mjConfigured sendOk = .error exc
        ∧ exc.status_code = 400)
    ∧ (get_user_by_username db username = none → get_user_by_email db email = none →
      ∃ (u : User) (mails : List MailMessage),
        register_user db username email password salt nextId now mjConfigured sendOk
          = .ok (u, ⟨db.users ++ [u]⟩, mails)
        ∧ u.username = username
        ∧ u.email = some email
        ∧ u.hashed_password = get_password_hash password salt
        ∧ u.is_active = true
        ∧ u.is_verified = false
        ∧ mails = send_verification_email email (create_email_verification_token email now)
                    mjConfigured sendOk
        ∧ ∀ cfg2 sOk2 : Bool, ∃ mails2,
            register_user db username email password salt nextId now cfg2 sOk2
              = .ok (u, ⟨db.users ++ [u]⟩, mails2)) := by
  constructor
  · intro h
    unfold register_user
    by_cases h1 : (get_user_by_username db username).isSome
    · exact ⟨_, by rw [if_pos h1], rfl⟩
    · have h2 : (get_user_by_email db email).isSome := h.resolve_left h1
      exact ⟨_, by rw [if_neg h1, if_pos h2], rfl⟩
  · intro h1 h2
    refine ⟨{ id := nextId, username := username, email := some email,
              hashed_password := get_password_hash password salt,
              is_active := true, is_verified := false },
            send_verification_email email (create_email_verification_token email now)
              mjConfigured sendOk,
            ?_, rfl, rfl, rfl, rfl, rfl, rfl, ?_⟩
    · unfold register_user
      rw [if_neg (by simp [h1]), if_neg (by simp [h2])]
    · intro cfg2 sOk2
      refine ⟨send_verification_email email (create_email_verification_token email now) cfg2 sOk2, ?_⟩
      unfold register_user
      rw [if_neg (by simp [h1]), if_neg (by simp [h2])]

/-- Witness for C8 at a concrete state: registering alice in the empty
store succeeds with an unverified, active account. -/
theorem c8_register_behavior_witness :
    get_user_by_username ⟨[]⟩ "alice" = none
    ∧ get_user_by_email ⟨[]⟩ "a@x.com" = none
    ∧ ∃ (u : User) (mails : List MailMessage),
        register_user ⟨[]⟩ "alice" "a@x.com" "pw1" 7 1 0 true true = .ok (u, ⟨[u]⟩, mails)
        ∧ u.is_verified = false ∧ u.is_active = true :=
  ⟨rfl, rfl, by
    obtain ⟨u, mails, hreg, _, _, _, hact, hver, _, _⟩ :=
      (c8_register_behavior ⟨[]⟩ "alice" "a@x.com" "pw1" 7 1 0 true true).2 rfl rfl
    exact ⟨u, mails, hreg, hver, hact⟩⟩

end FinLogistics
